import Mathlib

/-!
Verification of the nengo documentation-notebook repository.

The repository consists of two Jupyter notebooks,
`docs/examples/dynamics/controlled-oscillator.ipynb` and
`docs/examples/basic/2d-representation.ipynb`.  The only executable code the
repository authors is a handful of configuration calls into the external
`nengo` simulation library plus one three-line Python function (`feedback`).
This file embeds that owned content — the `feedback` callback, the numeric
literals, the network wiring (ensembles, nodes, connections, probes), the
piecewise input tables, and the notebook documents' cell structure — as Lean
definitions, and proves the stated properties about them.  Machinery that
lives only in the external simulation library (the `Piecewise` process, probe
recording, the simulator time grid) is modelled from the specification and
marked as such in doc comments.
-/

namespace Nengo

/-- A notebook cell is either a markdown cell or a code cell.  We record, for
each code cell, the list of Python function definitions it authors (the
`defs` field); everything else a code cell does is a call into the external
library. -/
inductive CellType
  | markdown
  | code
deriving DecidableEq

/-- Names of Python functions defined in the notebooks' code cells.  The only
`def` statement in either notebook is `feedback` in the controlled-oscillator
notebook. -/
inductive FnName
  | feedback
deriving DecidableEq

/-- One cell of a notebook document: its `cell_type` and the function
definitions its source authors (empty for markdown cells and for code cells
that only call into the external libraries). -/
structure Cell where
  cellType : CellType
  defs : List FnName
deriving DecidableEq

/-- The structure of an `.ipynb` document relevant here: the parsed JSON
object's `cells` array and its top-level `nbformat` / `nbformat_minor`
fields. -/
structure Notebook where
  cells : List Cell
  nbformat : ℕ
  nbformat_minor : ℕ
deriving DecidableEq

/-- `docs/examples/dynamics/controlled-oscillator.ipynb` as parsed: twelve
cells alternating markdown and code, `nbformat` 4, `nbformat_minor` 2.  The
fourth cell (index 3, "Step 1: Create the network") contains the
`def feedback(x)` statement. -/
def controlled_oscillator : Notebook :=
  ⟨[⟨.markdown, []⟩, ⟨.code, []⟩, ⟨.markdown, []⟩, ⟨.code, [.feedback]⟩,
    ⟨.markdown, []⟩, ⟨.code, []⟩, ⟨.markdown, []⟩, ⟨.code, []⟩,
    ⟨.markdown, []⟩, ⟨.code, []⟩, ⟨.markdown, []⟩, ⟨.code, []⟩], 4, 2⟩

/-- `docs/examples/basic/2d-representation.ipynb` as parsed: twelve cells,
`nbformat` 4, `nbformat_minor` 2, no function definitions in any code
cell. -/
def twod_representation : Notebook :=
  ⟨[⟨.markdown, []⟩, ⟨.markdown, []⟩, ⟨.code, []⟩, ⟨.markdown, []⟩,
    ⟨.code, []⟩, ⟨.markdown, []⟩, ⟨.code, []⟩, ⟨.markdown, []⟩,
    ⟨.code, []⟩, ⟨.markdown, []⟩, ⟨.code, []⟩, ⟨.code, []⟩], 4, 2⟩

/-- All Python function definitions authored across both notebooks' code
cells, in document order. -/
def authored_defs : List FnName :=
  (controlled_oscillator.cells ++ twod_representation.cells).foldr
    (fun c acc => c.defs ++ acc) []

/-- An ensemble as configured by the notebooks: `nengo.Ensemble(n_neurons,
dimensions, radius)`; `radius` is `none` when the call leaves it at the
library default. -/
structure Ensemble where
  n_neurons : ℕ
  dimensions : ℕ
  radius : Option ℚ
deriving DecidableEq

/-- A connection or probe endpoint: a whole component, or one indexed
dimension of it (Python `component[idx]`). -/
inductive Endpoint (C : Type)
  | whole (c : C)
  | slice (c : C) (idx : ℕ)
deriving DecidableEq

/-- A `nengo.Connection(src, dst)` as wired by the notebooks. -/
structure Conn (C : Type) where
  src : Endpoint C
  dst : Endpoint C
deriving DecidableEq

/-- The attribute a probe records: the library default, `output`, or
`decoded_output`. -/
inductive ProbeAttr
  | default_attr
  | output
  | decoded_output
deriving DecidableEq

/-- A `nengo.Probe(target, attr, synapse)` as configured by the notebooks. -/
structure Probe (C : Type) where
  target : Endpoint C
  attr : ProbeAttr
  synapse : Option ℚ
deriving DecidableEq

/-- Modelled from the spec: the external library's `Piecewise` process (from
`nengo.processes`, not under `src/`) outputs, at time `t`, the value attached
to the latest breakpoint at or before `t`, and the zero value before the
first breakpoint.  The table lists the breakpoints in the increasing order in
which the notebooks' dict literals give them. -/
def piecewiseAt {α : Type} (zero : α) : List (ℚ × α) → ℚ → α
  | [], _ => zero
  | (b, v) :: rest, t => if b ≤ t then piecewiseAt v rest t else zero

/-- Modelled from the spec: `sim.run(T)` (the `Simulator` is external library
code, not under `src/`) advances the simulation `n` steps of size `dt` with
`n * dt = T`, recording every probe once at the end of each step, i.e. at
times `dt, 2*dt, ..., n*dt`. -/
def trange (dt : ℚ) (n : ℕ) : List ℚ :=
  (List.range n).map fun k : ℕ => ((k : ℚ) + 1) * dt

namespace Oscillator

/-- `tau = 0.1`, the post-synaptic time constant for feedback. -/
def tau : ℚ := 1 / 10

/-- `w_max = 10`; the maximum frequency is `w_max / (2*pi)`. -/
def w_max : ℚ := 10

/-- The `feedback` function defined in the notebook's network cell:
`return x0 + w * w_max * tau * x1, x1 - w * w_max * tau * x0, 0`
for `x0, x1, w = x`. -/
def feedback (x : ℚ × ℚ × ℚ) : ℚ × ℚ × ℚ :=
  (x.1 + x.2.2 * w_max * tau * x.2.1, x.2.1 - x.2.2 * w_max * tau * x.1, 0)

/-- The closed-form feedback function as stated by the notebook's markdown
derivation and by the spec:
`(x0 - w * w_max * tau * x1, x1 + w * w_max * tau * x0, 0)`.
Named after the markdown's `f_feedback`; kept separate from `feedback` so the
two can be compared. -/
def f_feedback_spec (x : ℚ × ℚ × ℚ) : ℚ × ℚ × ℚ :=
  (x.1 - x.2.2 * w_max * tau * x.2.1, x.2.1 + x.2.2 * w_max * tau * x.1, 0)

/-- The markdown's oscillator dynamics `xdot = [[0, -w], [w, 0]] x`. -/
def oscDynamics (w : ℚ) (x : ℚ × ℚ) : ℚ × ℚ :=
  (-w * x.2, w * x.1)

/-- `feedback` on a Python-level argument: the body destructures `x` as a
3-tuple (`x0, x1, w = x`), which succeeds exactly when `x` has three
elements and raises otherwise; `none` models the raise. -/
def feedbackList (x : List ℚ) : Option (ℚ × ℚ × ℚ) :=
  match x with
  | [x0, x1, w] => some (x0 + w * w_max * tau * x1, x1 - w * w_max * tau * x0, 0)
  | _ => none

/-- The components built in the controlled-oscillator notebook. -/
inductive Comp
  | oscillator
  | frequency
  | initial
  | input_frequency
deriving DecidableEq

/-- `nengo.Ensemble(500, dimensions=3, radius=1.7)`. -/
def oscillator : Ensemble := ⟨500, 3, some (17 / 10)⟩

/-- `nengo.Ensemble(100, dimensions=1)`. -/
def frequency : Ensemble := ⟨100, 1, none⟩

/-- `nengo.Connection(oscillator, oscillator, function=feedback, synapse=tau)`. -/
def recurrent_conn : Conn Comp := ⟨.whole .oscillator, .whole .oscillator⟩

/-- `nengo.Connection(frequency, oscillator[2])`. -/
def frequency_conn : Conn Comp := ⟨.whole .frequency, .slice .oscillator 2⟩

/-- `nengo.Connection(initial, oscillator)`. -/
def initial_conn : Conn Comp := ⟨.whole .initial, .whole .oscillator⟩

/-- `nengo.Connection(input_frequency, frequency)`. -/
def input_frequency_conn : Conn Comp := ⟨.whole .input_frequency, .whole .frequency⟩

/-- All four connections of the model, in source order. -/
def connections : List (Conn Comp) :=
  [recurrent_conn, frequency_conn, initial_conn, input_frequency_conn]

/-- Whether a connection destination covers dimension 2 (the represented
frequency variable omega) of the `oscillator` ensemble. -/
def writesOmega (d : Endpoint Comp) : Bool :=
  match d with
  | .whole .oscillator => true
  | .slice .oscillator i => i == 2
  | _ => false

/-- The breakpoint table of `initial`:
`Piecewise({0: [1, 0, 0], 0.15: [0, 0, 0]})`. -/
def initial_table : List (ℚ × (ℚ × ℚ × ℚ)) :=
  [(0, (1, 0, 0)), (3 / 20, (0, 0, 0))]

/-- The signal emitted by the `initial` node over time. -/
def initial_signal (t : ℚ) : ℚ × ℚ × ℚ :=
  piecewiseAt (0, 0, 0) initial_table t

/-- The breakpoint table of `input_frequency`:
`Piecewise({0: 1, 1: 0.5, 2: 0, 3: -0.5, 4: -1})`. -/
def input_frequency_table : List (ℚ × ℚ) :=
  [(0, 1), (1, 1 / 2), (2, 0), (3, -(1 / 2)), (4, -1)]

/-- The signal emitted by the `input_frequency` node over time. -/
def input_frequency_signal (t : ℚ) : ℚ :=
  piecewiseAt 0 input_frequency_table t

/-- `nengo.Probe(oscillator, synapse=0.03)`. -/
def oscillator_probe : Probe Comp := ⟨.whole .oscillator, .default_attr, some (3 / 100)⟩

/-- Modelled from the spec: a probe's recorded row has one column per
represented dimension of the probed object (the recording machinery is in
the external library, not under `src/`); a sliced target has one column, a
whole component as many as its dimensions. -/
def probeWidth (p : Probe Comp) : ℕ :=
  match p.target with
  | .whole .oscillator => oscillator.dimensions
  | .whole .frequency => frequency.dimensions
  | .whole .initial => 3
  | .whole .input_frequency => 1
  | .slice _ _ => 1

/-- One recorded row of a probe, given the decoded value of each column at
that step. -/
def probeRow (p : Probe Comp) (decoded : Fin (probeWidth p) → ℚ) : List ℚ :=
  (List.finRange (probeWidth p)).map decoded

/-- The argument list of the notebook's `sim.run` calls: a single
`sim.run(5)`. -/
def run_calls : List ℚ := [5]

end Oscillator

namespace TwoD

/-- The components built in the 2d-representation notebook. -/
inductive Comp
  | neurons
  | sin
  | cos
deriving DecidableEq

/-- `nengo.Ensemble(100, dimensions=2)`. -/
def neurons : Ensemble := ⟨100, 2, none⟩

/-- `nengo.Connection(sin, neurons[0])`. -/
def sin_conn : Conn Comp := ⟨.whole .sin, .slice .neurons 0⟩

/-- `nengo.Connection(cos, neurons[1])`. -/
def cos_conn : Conn Comp := ⟨.whole .cos, .slice .neurons 1⟩

/-- `nengo.Probe(sin, 'output')`. -/
def sin_probe : Probe Comp := ⟨.whole .sin, .output, none⟩

/-- `nengo.Probe(cos, 'output')`. -/
def cos_probe : Probe Comp := ⟨.whole .cos, .output, none⟩

/-- `nengo.Probe(neurons, 'decoded_output', synapse=0.01)`. -/
def neurons_probe : Probe Comp := ⟨.whole .neurons, .decoded_output, some (1 / 100)⟩

/-- The argument list of the notebook's `sim.run` calls: a single
`sim.run(5)`. -/
def run_calls : List ℚ := [5]

end TwoD

/-- C6 as stated: no code cell of either notebook authors an executable
function definition, so the feedback function would exist only as markdown
background for the reader. -/
def no_authored_feedback : Prop :=
  ∀ c ∈ controlled_oscillator.cells ++ twod_representation.cells, c.defs = []

namespace Oscillator

/-- Auxiliary: on `t ≥ 0` the `input_frequency` signal equals the explicit
step function with plateaus `1, 1/2, 0, -1/2, -1` on `[0,1), [1,2), [2,3),
[3,4), [4,∞)`. -/
lemma input_frequency_signal_eq_step (t : ℚ) (ht : 0 ≤ t) :
    input_frequency_signal t =
      if t < 1 then 1 else if t < 2 then 1 / 2 else if t < 3 then 0
        else if t < 4 then -(1 / 2) else -1 := by
  simp only [input_frequency_signal, input_frequency_table, piecewiseAt]
  split_ifs
  all_goals first | rfl | linarith

/-- C1: the `feedback` code cell contradicts the notebook's own markdown
derivation (and the spec's closed form): at `x = (0, 1, 1)` the code returns
`(1, 1, 0)` while the markdown formula `f_feedback` gives `(-1, 1, 0)`; the
signs of the two coupling terms are swapped. -/
theorem feedback_contradicts_markdown :
    feedback (0, 1, 1) = (1, 1, 0) ∧
    f_feedback_spec (0, 1, 1) = (-1, 1, 0) ∧
    feedback (0, 1, 1) ≠ f_feedback_spec (0, 1, 1) := by
  refine ⟨?_, ?_, ?_⟩ <;> simp [feedback, f_feedback_spec, tau, w_max] <;> norm_num

/-- C2: the probed ensemble is constructed with `dimensions=3`, hence the
oscillator probe's row width is 3 and each recorded row is a 3-vector. -/
theorem oscillator_probe_three_columns :
    oscillator.dimensions = 3 ∧ probeWidth oscillator_probe = 3 ∧
    ∀ decoded : Fin (probeWidth oscillator_probe) → ℚ,
      (probeRow oscillator_probe decoded).length = 3 := by
  refine ⟨rfl, rfl, fun decoded => ?_⟩
  simp [probeRow, probeWidth, oscillator_probe, oscillator]

/-- C5: `feedback` is total on 3-vectors (the tuple destructuring succeeds,
no error is raised) and deterministic (equal inputs give equal outputs). -/
theorem feedback_total_deterministic :
    (∀ x : List ℚ, x.length = 3 → (feedbackList x).isSome = true) ∧
    (∀ x y : List ℚ, x = y → feedbackList x = feedbackList y) := by
  constructor
  · intro x hx
    obtain ⟨a, b, c, rfl⟩ := List.length_eq_three.mp hx
    rfl
  · intro x y h
    rw [h]

/-- C5 witness: `feedback` evaluated on the concrete 3-vector `[1, 0, 1]`
returns a value, and the call is reproducible. -/
theorem feedback_total_deterministic_witness :
    (feedbackList [1, 0, 1]).isSome = true ∧
      feedbackList [1, 0, 1] = feedbackList [1, 0, 1] :=
  ⟨feedback_total_deterministic.1 [1, 0, 1] rfl,
   feedback_total_deterministic.2 [1, 0, 1] [1, 0, 1] rfl⟩

/-- C8: the third component of `feedback` is identically 0, the `initial`
node's signal has third component identically 0, and the connections whose
destination covers the oscillator's dimension 2 (omega) are exactly the
recurrent, frequency and initial connections — so among them only the
frequency connection can deliver a nonzero value to omega. -/
theorem omega_frame_condition :
    (∀ x : ℚ × ℚ × ℚ, (feedback x).2.2 = 0) ∧
    (∀ t : ℚ, (initial_signal t).2.2 = 0) ∧
    connections.filter (fun c => writesOmega c.dst) =
      [recurrent_conn, frequency_conn, initial_conn] := by
  refine ⟨fun x => rfl, ?_, by decide⟩
  intro t
  simp only [initial_signal, initial_table, piecewiseAt]
  split_ifs <;> rfl

/-- C9: `input_frequency` takes the values `1, 0.5, 0, -0.5, -1` at its
breakpoints `0, 1, 2, 3, 4`, and over simulated time (`t ≥ 0`) the signal is
monotonically non-increasing. -/
theorem input_frequency_nonincreasing :
    (input_frequency_signal 0 = 1 ∧ input_frequency_signal 1 = 1 / 2 ∧
     input_frequency_signal 2 = 0 ∧ input_frequency_signal 3 = -(1 / 2) ∧
     input_frequency_signal 4 = -1) ∧
    ∀ s t : ℚ, 0 ≤ s → s ≤ t →
      input_frequency_signal t ≤ input_frequency_signal s := by
  refine ⟨⟨by norm_num [input_frequency_signal, input_frequency_table, piecewiseAt],
          by norm_num [input_frequency_signal, input_frequency_table, piecewiseAt],
          by norm_num [input_frequency_signal, input_frequency_table, piecewiseAt],
          by norm_num [input_frequency_signal, input_frequency_table, piecewiseAt],
          by norm_num [input_frequency_signal, input_frequency_table, piecewiseAt]⟩,
         ?_⟩
  intro s t hs hst
  rw [input_frequency_signal_eq_step s hs,
      input_frequency_signal_eq_step t (le_trans hs hst)]
  split_ifs <;> linarith

/-- C9 witness: at the concrete times `s = 1/2` and `t = 7/2` the signal has
not increased. -/
theorem input_frequency_nonincreasing_witness :
    input_frequency_signal (7 / 2) ≤ input_frequency_signal (1 / 2) :=
  input_frequency_nonincreasing.2 (1 / 2) (7 / 2) (by norm_num) (by norm_num)

end Oscillator

/-- C6 counterexample: the claim that no executable code authored in the
repository implements the feedback function is false — the
controlled-oscillator notebook's network cell contains the `def feedback`
statement. -/
theorem no_authored_feedback_refuted : ¬ no_authored_feedback := by
  unfold no_authored_feedback
  decide

/-- C6 amended: the only executable function authored across both notebooks
is the three-line `feedback` callback, and it implements the recurrent form
`x + tau * f(x)` of the markdown's oscillator dynamics (with effective
frequency `-(w * w_max)`, i.e. the sign convention opposite to the
markdown's); the numerical integration itself stays in the external
library. -/
theorem feedback_only_authored_function (x0 x1 w : ℚ) :
    authored_defs = [FnName.feedback] ∧
    Oscillator.feedback (x0, x1, w) =
      (x0 + Oscillator.tau *
          (Oscillator.oscDynamics (-(w * Oscillator.w_max)) (x0, x1)).1,
       x1 + Oscillator.tau *
          (Oscillator.oscDynamics (-(w * Oscillator.w_max)) (x0, x1)).2, 0) := by
  refine ⟨by decide, ?_⟩
  simp only [Oscillator.feedback, Oscillator.oscDynamics, Prod.mk.injEq]
  refine ⟨by ring, by ring, trivial⟩

/-- C7: both notebook documents are cell-based and carry `"nbformat": 4`
(with `nbformat_minor` 2); each consists of twelve cells. -/
theorem notebooks_are_nbformat_four :
    controlled_oscillator.nbformat = 4 ∧ twod_representation.nbformat = 4 ∧
    controlled_oscillator.nbformat_minor = 2 ∧
    twod_representation.nbformat_minor = 2 ∧
    controlled_oscillator.cells.length = 12 ∧
    twod_representation.cells.length = 12 := by
  refine ⟨rfl, rfl, rfl, rfl, rfl, rfl⟩

/-- C10: each notebook issues a single `sim.run(5)` call, and every sample
time recorded by a probe during that run lies in the interval `(0, 5]`. -/
theorem run_five_seconds_probe_range (dt x : ℚ) (n : ℕ)
    (hdt : 0 < dt) (hn : (n : ℚ) * dt = 5) (hx : x ∈ trange dt n) :
    Oscillator.run_calls = [5] ∧ TwoD.run_calls = [5] ∧ 0 < x ∧ x ≤ 5 := by
  unfold trange at hx
  rcases List.mem_map.1 hx with ⟨k, hk, rfl⟩
  have hklt : k < n := List.mem_range.1 hk
  have hkn : (k : ℚ) + 1 ≤ (n : ℚ) := by exact_mod_cast hklt
  have hk1 : (0 : ℚ) < (k : ℚ) + 1 := by positivity
  refine ⟨rfl, rfl, mul_pos hk1 hdt, ?_⟩
  calc ((k : ℚ) + 1) * dt ≤ (n : ℚ) * dt :=
        mul_le_mul_of_nonneg_right hkn (le_of_lt hdt)
    _ = 5 := hn

/-- C10 witness: with step `dt = 1` and `n = 5` steps, the concrete sample
time `3` lies in `(0, 5]` and the run-call lists are as claimed. -/
theorem run_five_seconds_probe_range_witness :
    Oscillator.run_calls = [5] ∧ TwoD.run_calls = [5] ∧
      (0 : ℚ) < 3 ∧ (3 : ℚ) ≤ 5 :=
  run_five_seconds_probe_range 1 3 5 (by norm_num) (by norm_num)
    (by unfold trange
        simp only [List.mem_map, List.mem_range]
        exact ⟨2, by norm_num, by norm_num⟩)

end Nengo
